import Mathlib

/-!
Verification of the I/O-readiness multiplexer in `supervisor/poller.py`.

The module contains three backend classes behind one contract:

* `SelectPoller` — descriptor-set-scan backend: two explicit Python lists
  `readable` and `writable`, a `select.select` wait call.
* `PollPoller` — poll-table backend: a kernel poll object holding a table of
  (fd, eventmask) registrations, a `poll.poll` wait call returning
  (fd, eventmask) pairs.
* `KQueuePoller` — kernel-event-queue backend: registrations live in the
  kernel queue; register/unregister issue `kevent` change records.

Module-level selection picks `KQueuePoller` if `select.kqueue` exists, else
`PollPoller` if `select.poll` exists, else `SelectPoller`.

Shallow embedding: file descriptors are `Int` (Python ints, treated as
opaque handles), timeouts are `ℚ` (Python floats are used only as fractional
second counts that get multiplied by 1000; rationals model the arithmetic the
claims are about), the underlying OS wait calls (`select.select`,
`poll.poll`, `kqueue.control`) are oracle function parameters returning
`Except SelectError …`, and the logger (`options.logger.blather`) is a list
of strings threaded through the state.
-/

/-- Errors raised by the OS wait calls (`select.error` / `OSError`): the two
`errno` values the code inspects, and any other errno. -/
inductive SelectError where
  | EINTR : SelectError
  | EBADF : SelectError
  | other : Nat → SelectError
deriving DecidableEq, Repr

/-! ## SelectPoller: the descriptor-set-scan backend -/

/-- State of `SelectPoller`: the two interest lists set up by
`SelectPoller.initialize` (`self.readable = []`, `self.writable = []`),
plus the trace log written via `self.options.logger.blather`. -/
structure SelectPollerState where
  readable : List Int
  writable : List Int
  log : List String
deriving DecidableEq, Repr

/-- The freshly constructed scan backend: both interest lists empty. -/
def SelectPollerState.init : SelectPollerState :=
  { readable := [], writable := [], log := [] }

/-- `self.options.logger.blather(msg)`: append a trace message. -/
def SelectPollerState.blather (s : SelectPollerState) (msg : String) :
    SelectPollerState :=
  { s with log := s.log ++ [msg] }

/-- `SelectPoller.register_readable`: `self.readable.append(fd)` —
an unconditional Python list append. -/
def SelectPoller.register_readable (s : SelectPollerState) (fd : Int) :
    SelectPollerState :=
  { s with readable := s.readable ++ [fd] }

/-- `SelectPoller.register_writable`: `self.writable.append(fd)`. -/
def SelectPoller.register_writable (s : SelectPollerState) (fd : Int) :
    SelectPollerState :=
  { s with writable := s.writable ++ [fd] }

/-- `SelectPoller.unregister`:
`if fd in self.readable: self.readable.remove(fd)` and the same for
`self.writable`.  Python's `list.remove` deletes the first occurrence only,
which `List.erase` matches exactly. -/
def SelectPoller.unregister (s : SelectPollerState) (fd : Int) :
    SelectPollerState :=
  let s1 := if fd ∈ s.readable then { s with readable := s.readable.erase fd }
            else s
  if fd ∈ s1.writable then { s1 with writable := s1.writable.erase fd }
  else s1

/-- `SelectPoller.unregister_all`: `self.writable = []; self.readable = []`. -/
def SelectPoller.unregister_all (s : SelectPollerState) : SelectPollerState :=
  { s with readable := [], writable := [] }

/-- The `select.select` OS call, as an oracle: takes the readable interest
list, the writable interest list and the timeout (seconds), returns the
triple `(r, w, x)` of ready descriptors or fails with an errno. -/
def SelectCall : Type :=
  List Int → List Int → ℚ → Except SelectError (List Int × List Int × List Int)

/-- `SelectPoller.poll`: call `select.select(self.readable, self.writable,
[], timeout)`; on `EINTR` log and return `[], []`; on `EBADF` log, clear all
registrations and return `[], []`; re-raise any other error; otherwise
return `r, w`. -/
def SelectPoller.poll (sel : SelectCall) (s : SelectPollerState)
    (timeout : ℚ) :
    Except SelectError (SelectPollerState × List Int × List Int) :=
  match sel s.readable s.writable timeout with
  | .error .EINTR =>
      .ok (s.blather "EINTR encountered in poll", [], [])
  | .error .EBADF =>
      .ok (SelectPoller.unregister_all (s.blather "EBADF encountered in poll"),
           [], [])
  | .error (.other c) => .error (.other c)
  | .ok (r, w, _x) => .ok (s, r, w)

/-! ## PollPoller: the poll-table backend -/

/-- Event-bitmask constants of the `select` module (Linux values). -/
def POLLIN : Nat := 1

def POLLPRI : Nat := 2

def POLLOUT : Nat := 4

def POLLERR : Nat := 8

def POLLHUP : Nat := 16

def POLLNVAL : Nat := 32

/-- `self.READ = select.POLLIN | select.POLLPRI | select.POLLHUP`. -/
def PollPoller.READ : Nat := POLLIN ||| POLLPRI ||| POLLHUP

/-- `self.WRITE = select.POLLOUT`. -/
def PollPoller.WRITE : Nat := POLLOUT

/-- State of `PollPoller`: the kernel poll object's registration table
(one eventmask per registered fd, represented as an association list with
distinct keys), plus the trace log. -/
structure PollPollerState where
  table : List (Int × Nat)
  log : List String
deriving DecidableEq, Repr

/-- The freshly constructed poll-table backend: empty table. -/
def PollPollerState.init : PollPollerState :=
  { table := [], log := [] }

/-- The poll object's `register(fd, mask)`: adds the fd with the given
eventmask, replacing any existing registration of the same fd. -/
def tableRegister (t : List (Int × Nat)) (fd : Int) (mask : Nat) :
    List (Int × Nat) :=
  t.filter (fun p => p.1 != fd) ++ [(fd, mask)]

/-- The poll object's `unregister(fd)`: removes the fd's registration
from the table. -/
def tableUnregister (t : List (Int × Nat)) (fd : Int) : List (Int × Nat) :=
  t.filter (fun p => p.1 != fd)

/-- `PollPoller.register_readable`: `self._poller.register(fd, self.READ)`. -/
def PollPoller.register_readable (s : PollPollerState) (fd : Int) :
    PollPollerState :=
  { s with table := tableRegister s.table fd PollPoller.READ }

/-- `PollPoller.register_writable`: `self._poller.register(fd, self.WRITE)`. -/
def PollPoller.register_writable (s : PollPollerState) (fd : Int) :
    PollPollerState :=
  { s with table := tableRegister s.table fd PollPoller.WRITE }

/-- `PollPoller.unregister`: `self._poller.unregister(fd)`. -/
def PollPoller.unregister (s : PollPollerState) (fd : Int) : PollPollerState :=
  { s with table := tableUnregister s.table fd }

/-- The poll object's wait call `self._poller.poll(ms)`, as an oracle:
takes the timeout in milliseconds, returns the list of
(fd, eventmask) pairs that fired, or fails with an errno. -/
def PollCall : Type :=
  ℚ → Except SelectError (List (Int × Nat))

/-- `PollPoller._poll_fds(timeout)`: `self._poller.poll(timeout * 1000)`;
on `EINTR` log and return `[]`; re-raise any other error.  The log is
threaded explicitly. -/
def PollPoller.pollFds (wait : PollCall) (timeout : ℚ) (log : List String) :
    Except SelectError (List (Int × Nat) × List String) :=
  match wait (timeout * 1000) with
  | .ok fds => .ok (fds, log)
  | .error .EINTR => .ok ([], log ++ ["EINTR encountered in poll"])
  | .error e => .error e

/-- The body of `PollPoller.poll`'s result loop: for each `(fd, eventmask)`
pair, `self._ignore_invalid(fd, eventmask)` — if `eventmask &
select.POLLNVAL` is set, `self.unregister(fd)` and `continue` — otherwise
append `fd` to `readables` if `eventmask & self.READ` and to `writables` if
`eventmask & self.WRITE`.  Returns the updated table and the two result
lists, preserving the iteration order of the appends. -/
def PollPoller.processFds :
    List (Int × Nat) → List (Int × Nat) →
      List (Int × Nat) × List Int × List Int
  | table, [] => (table, [], [])
  | table, (fd, mask) :: rest =>
      if (mask &&& POLLNVAL) != 0 then
        PollPoller.processFds (tableUnregister table fd) rest
      else
        let r := PollPoller.processFds table rest
        (r.1,
         (if (mask &&& PollPoller.READ) != 0 then fd :: r.2.1 else r.2.1),
         (if (mask &&& PollPoller.WRITE) != 0 then fd :: r.2.2 else r.2.2))

/-- `PollPoller.poll(timeout)`: fetch the fired pairs via `_poll_fds`
(propagating its error), then run the classification loop. -/
def PollPoller.poll (wait : PollCall) (s : PollPollerState) (timeout : ℚ) :
    Except SelectError (PollPollerState × List Int × List Int) :=
  match PollPoller.pollFds wait timeout s.log with
  | .error e => .error e
  | .ok (fds, log) =>
      let r := PollPoller.processFds s.table fds
      .ok ({ table := r.1, log := log }, r.2.1, r.2.2)

/-! ## KQueuePoller: the kernel-event-queue backend -/

/-- `select.KQ_FILTER_READ` (= `EVFILT_READ`). -/
def KQ_FILTER_READ : Int := -1

/-- `select.KQ_FILTER_WRITE` (= `EVFILT_WRITE`). -/
def KQ_FILTER_WRITE : Int := -2

/-- `select.KQ_EV_ADD`. -/
def KQ_EV_ADD : Nat := 1

/-- `select.KQ_EV_DELETE`. -/
def KQ_EV_DELETE : Nat := 2

/-- A `select.kevent(ident, filter=…, flags=…)` change/event record. -/
structure Kevent where
  ident : Int
  filter : Int
  flags : Nat
deriving DecidableEq, Repr

/-- `KQueuePoller.max_events = 1000`. -/
def KQueuePoller.max_events : Nat := 1000

/-- `KQueuePoller.register_readable`: the change list passed to
`self._kqueue.control([kevent], 0)` with
`kevent = select.kevent(fd, filter=select.KQ_FILTER_READ,
flags=select.KQ_EV_ADD)`. -/
def KQueuePoller.register_readable_changes (fd : Int) : List Kevent :=
  [{ ident := fd, filter := KQ_FILTER_READ, flags := KQ_EV_ADD }]

/-- `KQueuePoller.register_writable`: as above with
`filter=select.KQ_FILTER_WRITE`. -/
def KQueuePoller.register_writable_changes (fd : Int) : List Kevent :=
  [{ ident := fd, filter := KQ_FILTER_WRITE, flags := KQ_EV_ADD }]

/-- `KQueuePoller.unregister`: the change list passed to
`self._kqueue.control([kevent], 0)` with
`kevent = select.kevent(fd,
filter=(select.KQ_FILTER_READ | select.KQ_FILTER_WRITE),
flags=select.KQ_EV_DELETE)` — the filter field is the Python bitwise OR
of the two (negative) filter constants. -/
def KQueuePoller.unregister_changes (fd : Int) : List Kevent :=
  [{ ident := fd, filter := Int.lor KQ_FILTER_READ KQ_FILTER_WRITE,
     flags := KQ_EV_DELETE }]

/-- The `self._kqueue.control(None, max_events, timeout)` retrieval call,
as an oracle: takes the maximum batch size and the timeout, returns the
ready events or fails with an errno. -/
def KQueueCall : Type :=
  Nat → ℚ → Except SelectError (List Kevent)

/-- The classification loop of `KQueuePoller.poll`: for each returned
event, append `kevent.ident` to `readables` if its filter is
`KQ_FILTER_READ` and to `writables` if its filter is `KQ_FILTER_WRITE`. -/
def KQueuePoller.classify : List Kevent → List Int × List Int
  | [] => ([], [])
  | k :: rest =>
      let r := KQueuePoller.classify rest
      ((if k.filter = KQ_FILTER_READ then k.ident :: r.1 else r.1),
       (if k.filter = KQ_FILTER_WRITE then k.ident :: r.2 else r.2))

/-- `KQueuePoller.poll(timeout)`: `self._kqueue.control(None,
self.max_events, timeout)`; on `EINTR` log and return the (still empty)
`readables, writables`; re-raise any other error; otherwise classify the
events by filter.  The log is threaded explicitly. -/
def KQueuePoller.poll (ctl : KQueueCall) (timeout : ℚ) (log : List String) :
    Except SelectError (List Int × List Int × List String) :=
  match ctl KQueuePoller.max_events timeout with
  | .error .EINTR => .ok ([], [], log ++ ["EINTR encountered in poll"])
  | .error e => .error e
  | .ok kevents =>
      let c := KQueuePoller.classify kevents
      .ok (c.1, c.2, log)

/-! ## Module-level backend selection -/

/-- The three backend classes the module can bind to the name `Poller`. -/
inductive BackendKind where
  | kqueue : BackendKind
  | pollTable : BackendKind
  | selectScan : BackendKind
deriving DecidableEq, Repr

/-- The module-level selection:
`if implements_kqueue(): Poller = KQueuePoller
elif implements_poll(): Poller = PollPoller
else: Poller = SelectPoller`, where `implements_kqueue()` is
`hasattr(select, 'kqueue')` and `implements_poll()` is
`hasattr(select, 'poll')`. -/
def selectBackend (hasKqueue hasPoll : Bool) : BackendKind :=
  if hasKqueue then .kqueue
  else if hasPoll then .pollTable
  else .selectScan

/-! ## Helper lemmas -/

/-- Both guarded `list.remove` steps of `SelectPoller.unregister` amount to
erasing the first occurrence (a no-op when absent). -/
theorem SelectPoller.unregister_eq (s : SelectPollerState) (fd : Int) :
    SelectPoller.unregister s fd =
      { s with readable := s.readable.erase fd,
               writable := s.writable.erase fd } := by
  unfold SelectPoller.unregister
  by_cases hr : fd ∈ s.readable <;> by_cases hw : fd ∈ s.writable <;>
    simp [hr, hw, List.erase_of_not_mem]

/-- Erasing one occurrence of an element that occurred at most once
removes it entirely. -/
theorem not_mem_erase_of_count_le_one (l : List Int) (fd : Int)
    (h : l.count fd ≤ 1) : fd ∉ l.erase fd := by
  intro hmem
  have h1 := List.count_pos_iff.mpr hmem
  rw [List.count_erase_self] at h1
  omega

/-- `SelectPoller.poll` when the scan call succeeds: returns its `r` and
`w` lists, state untouched. -/
theorem SelectPoller.poll_ok (sel : SelectCall) (s : SelectPollerState)
    (t : ℚ) (r w x : List Int)
    (h : sel s.readable s.writable t = .ok (r, w, x)) :
    SelectPoller.poll sel s t = .ok (s, r, w) := by
  unfold SelectPoller.poll
  rw [h]

/-- `SelectPoller.poll` when the scan call fails with `EINTR`: logs and
returns two empty lists. -/
theorem SelectPoller.poll_eintr (sel : SelectCall) (s : SelectPollerState)
    (t : ℚ) (h : sel s.readable s.writable t = .error .EINTR) :
    SelectPoller.poll sel s t =
      .ok (s.blather "EINTR encountered in poll", [], []) := by
  unfold SelectPoller.poll
  rw [h]

/-- `SelectPoller.poll` when the scan call fails with `EBADF`: logs,
clears all registrations and returns two empty lists. -/
theorem SelectPoller.poll_ebadf (sel : SelectCall) (s : SelectPollerState)
    (t : ℚ) (h : sel s.readable s.writable t = .error .EBADF) :
    SelectPoller.poll sel s t =
      .ok (SelectPoller.unregister_all
        (s.blather "EBADF encountered in poll"), [], []) := by
  unfold SelectPoller.poll
  rw [h]

/-- `SelectPoller.poll` re-raises any other scan-call error. -/
theorem SelectPoller.poll_other (sel : SelectCall) (s : SelectPollerState)
    (t : ℚ) (c : Nat) (h : sel s.readable s.writable t = .error (.other c)) :
    SelectPoller.poll sel s t = .error (.other c) := by
  unfold SelectPoller.poll
  rw [h]

/-- Closed form of the `PollPoller.poll` result loop: the readable result
is the fired pairs whose mask has no `POLLNVAL` bit and some `READ` bit,
the writable result those with no `POLLNVAL` bit and a `WRITE` bit, and the
table loses exactly the `POLLNVAL` descriptors. -/
theorem processFds_spec (fds table : List (Int × Nat)) :
    PollPoller.processFds table fds =
      (fds.foldl (fun t p => if (p.2 &&& POLLNVAL) != 0
          then tableUnregister t p.1 else t) table,
       (fds.filter (fun p => ((p.2 &&& POLLNVAL) == 0)
          && ((p.2 &&& PollPoller.READ) != 0))).map Prod.fst,
       (fds.filter (fun p => ((p.2 &&& POLLNVAL) == 0)
          && ((p.2 &&& PollPoller.WRITE) != 0))).map Prod.fst) := by
  induction fds generalizing table with
  | nil => rfl
  | cons hd tl ih =>
    obtain ⟨fd, mask⟩ := hd
    by_cases h : (mask &&& POLLNVAL) = 0
    · by_cases hR : (mask &&& PollPoller.READ) = 0 <;>
        by_cases hW : (mask &&& PollPoller.WRITE) = 0 <;>
          simp [PollPoller.processFds, h, ih, List.filter_cons, hR, hW]
    · simp [PollPoller.processFds, h, ih, List.filter_cons]

/-! ## Claim theorems -/

/-- Claim C1, counterexample: in the scan backend, registering descriptor 5
readable a second time is not a no-op — the interest list afterwards holds
two entries for 5, not exactly one. -/
theorem select_register_twice_not_noop :
    SelectPoller.register_readable
        (SelectPoller.register_readable SelectPollerState.init 5) 5
      ≠ SelectPoller.register_readable SelectPollerState.init 5
    ∧ (SelectPoller.register_readable
        (SelectPoller.register_readable SelectPollerState.init 5) 5).readable.count 5
      = 2 := by
  constructor
  · decide
  · decide

/-- Claim C1, amended: re-registering the same interest is not a no-op in
the scan backend — each `register_readable`/`register_writable` call appends
another entry, so two calls add two occurrences of the descriptor to the
interest list; in the poll-table backend re-registering the same interest is
idempotent (the table entry is replaced, leaving one registration). -/
theorem register_same_interest_twice :
    ∀ (s : SelectPollerState) (t : PollPollerState) (fd : Int),
      (SelectPoller.register_readable
          (SelectPoller.register_readable s fd) fd).readable.count fd
        = s.readable.count fd + 2
      ∧ (SelectPoller.register_writable
          (SelectPoller.register_writable s fd) fd).writable.count fd
        = s.writable.count fd + 2
      ∧ PollPoller.register_readable (PollPoller.register_readable t fd) fd
        = PollPoller.register_readable t fd
      ∧ PollPoller.register_writable (PollPoller.register_writable t fd) fd
        = PollPoller.register_writable t fd := by
  intro s t fd
  refine ⟨?_, ?_, ?_, ?_⟩
  · simp [SelectPoller.register_readable, List.count_append]
  · simp [SelectPoller.register_writable, List.count_append]
  · simp [PollPoller.register_readable, tableRegister, List.filter_append,
      List.filter_filter]
  · simp [PollPoller.register_writable, tableRegister, List.filter_append,
      List.filter_filter]

/-- Claim C2, counterexample: after registering descriptor 5 readable twice
(which the scan backend permits, duplicating the entry), `unregister(5)`
removes only the first occurrence, so 5 is still a member of the readable
interest list — unregister does not always remove all interests. -/
theorem unregister_after_duplicate_leaves_interest :
    (5 : Int) ∈ (SelectPoller.unregister
        (SelectPoller.register_readable
          (SelectPoller.register_readable SelectPollerState.init 5) 5)
        5).readable := by
  decide

/-- Claim C2, amended: `unregister(fd)` erases the first occurrence of `fd`
from each interest list, so whenever `fd` occurs at most once per list (in
particular when registrations were never duplicated) it is afterwards a
member of neither list; and for any state in which `fd` is registered in
neither list, a `poll` whose scan call returns only registered descriptors
never reports `fd` and leaves `fd` unregistered. -/
theorem unregister_then_never_reported :
    (∀ (s : SelectPollerState) (fd : Int),
        s.readable.count fd ≤ 1 → s.writable.count fd ≤ 1 →
          fd ∉ (SelectPoller.unregister s fd).readable
          ∧ fd ∉ (SelectPoller.unregister s fd).writable)
    ∧ (∀ (sel : SelectCall) (s : SelectPollerState) (t : ℚ) (fd : Int)
          (s' : SelectPollerState) (r w : List Int),
        (∀ r' w' x', sel s.readable s.writable t = .ok (r', w', x') →
            (∀ x ∈ r', x ∈ s.readable) ∧ (∀ x ∈ w', x ∈ s.writable)) →
        fd ∉ s.readable → fd ∉ s.writable →
        SelectPoller.poll sel s t = .ok (s', r, w) →
          fd ∉ r ∧ fd ∉ w ∧ fd ∉ s'.readable ∧ fd ∉ s'.writable) := by
  constructor
  · intro s fd h1 h2
    rw [SelectPoller.unregister_eq]
    exact ⟨not_mem_erase_of_count_le_one _ _ h1,
           not_mem_erase_of_count_le_one _ _ h2⟩
  · intro sel s t fd s' r w hsub hr hw hpoll
    rcases heq : sel s.readable s.writable t with e | ⟨r', w', x'⟩
    · cases e with
      | EINTR =>
        rw [SelectPoller.poll_eintr sel s t heq] at hpoll
        simp only [Except.ok.injEq, Prod.mk.injEq] at hpoll
        obtain ⟨h1, h2, h3⟩ := hpoll
        subst h1; subst h2; subst h3
        exact ⟨by simp, by simp, hr, hw⟩
      | EBADF =>
        rw [SelectPoller.poll_ebadf sel s t heq] at hpoll
        simp only [Except.ok.injEq, Prod.mk.injEq] at hpoll
        obtain ⟨h1, h2, h3⟩ := hpoll
        subst h1; subst h2; subst h3
        exact ⟨by simp, by simp,
          by simp [SelectPoller.unregister_all, SelectPollerState.blather],
          by simp [SelectPoller.unregister_all, SelectPollerState.blather]⟩
      | other c =>
        rw [SelectPoller.poll_other sel s t c heq] at hpoll
        exact absurd hpoll (by simp)
    · rw [SelectPoller.poll_ok sel s t r' w' x' heq] at hpoll
      simp only [Except.ok.injEq, Prod.mk.injEq] at hpoll
      obtain ⟨h1, h2, h3⟩ := hpoll
      subst h1; subst h2; subst h3
      obtain ⟨hrs, hws⟩ := hsub r' w' x' heq
      exact ⟨fun hmem => hr (hrs fd hmem), fun hmem => hw (hws fd hmem), hr, hw⟩

/-- Witness for the amended claim C2, at concrete inputs: state with one
registration of 5 per list (count ≤ 1), and a poll under `EINTR`
interruption for an unregistered descriptor 3. -/
theorem unregister_then_never_reported_witness :
    ((5 : Int) ∉ (SelectPoller.unregister ⟨[5], [6], []⟩ 5).readable
      ∧ (5 : Int) ∉ (SelectPoller.unregister ⟨[5], [6], []⟩ 5).writable)
    ∧ ((3 : Int) ∉ ([] : List Int) ∧ (3 : Int) ∉ ([] : List Int)
      ∧ (3 : Int) ∉
        (SelectPollerState.init.blather "EINTR encountered in poll").readable
      ∧ (3 : Int) ∉
        (SelectPollerState.init.blather "EINTR encountered in poll").writable) :=
  ⟨unregister_then_never_reported.1 ⟨[5], [6], []⟩ 5 (by decide) (by decide),
   unregister_then_never_reported.2 (fun _ _ _ => .error .EINTR)
     SelectPollerState.init 0 3
     (SelectPollerState.init.blather "EINTR encountered in poll") [] []
     (fun _ _ _ h => nomatch h) (by decide) (by decide) rfl⟩

/-- Claim C3: on every backend, an `EINTR` from the underlying wait call is
logged and turned into two empty result lists, while any error outside the
backend's recognized set (`EINTR`/`EBADF` for the scan backend, `EINTR` for
the poll-table and kernel-event-queue backends) propagates to the caller. -/
theorem poll_eintr_swallowed_other_errors_propagate :
    (∀ (sel : SelectCall) (s : SelectPollerState) (t : ℚ),
        sel s.readable s.writable t = .error .EINTR →
          SelectPoller.poll sel s t =
            .ok (s.blather "EINTR encountered in poll", [], []))
    ∧ (∀ (sel : SelectCall) (s : SelectPollerState) (t : ℚ) (c : Nat),
        sel s.readable s.writable t = .error (.other c) →
          SelectPoller.poll sel s t = .error (.other c))
    ∧ (∀ (wait : PollCall) (s : PollPollerState) (t : ℚ),
        wait (t * 1000) = .error .EINTR →
          PollPoller.poll wait s t =
            .ok ({ s with log := s.log ++ ["EINTR encountered in poll"] },
                 [], []))
    ∧ (∀ (wait : PollCall) (s : PollPollerState) (t : ℚ) (e : SelectError),
        e ≠ .EINTR → wait (t * 1000) = .error e →
          PollPoller.poll wait s t = .error e)
    ∧ (∀ (ctl : KQueueCall) (t : ℚ) (log : List String),
        ctl KQueuePoller.max_events t = .error .EINTR →
          KQueuePoller.poll ctl t log =
            .ok ([], [], log ++ ["EINTR encountered in poll"]))
    ∧ (∀ (ctl : KQueueCall) (t : ℚ) (log : List String) (e : SelectError),
        e ≠ .EINTR → ctl KQueuePoller.max_events t = .error e →
          KQueuePoller.poll ctl t log = .error e) := by
  refine ⟨?_, ?_, ?_, ?_, ?_, ?_⟩
  · intro sel s t h
    exact SelectPoller.poll_eintr sel s t h
  · intro sel s t c h
    exact SelectPoller.poll_other sel s t c h
  · intro wait s t h
    unfold PollPoller.poll PollPoller.pollFds
    rw [h]
    rfl
  · intro wait s t e hne h
    cases e with
    | EINTR => exact absurd rfl hne
    | EBADF =>
      unfold PollPoller.poll PollPoller.pollFds
      rw [h]
    | other c =>
      unfold PollPoller.poll PollPoller.pollFds
      rw [h]
  · intro ctl t log h
    unfold KQueuePoller.poll
    rw [h]
  · intro ctl t log e hne h
    cases e with
    | EINTR => exact absurd rfl hne
    | EBADF =>
      unfold KQueuePoller.poll
      rw [h]
    | other c =>
      unfold KQueuePoller.poll
      rw [h]

/-- Witness for claim C3: constant-error oracles on each backend. -/
theorem poll_eintr_swallowed_other_errors_propagate_witness :
    SelectPoller.poll (fun _ _ _ => .error .EINTR) SelectPollerState.init 0 =
      .ok (SelectPollerState.init.blather "EINTR encountered in poll", [], [])
    ∧ SelectPoller.poll (fun _ _ _ => .error (.other 12))
        SelectPollerState.init 0 = .error (.other 12)
    ∧ PollPoller.poll (fun _ => .error .EINTR) PollPollerState.init 0 =
      .ok ({ PollPollerState.init with
             log := PollPollerState.init.log ++ ["EINTR encountered in poll"] },
           [], [])
    ∧ PollPoller.poll (fun _ => .error .EBADF) PollPollerState.init 0 =
      .error .EBADF
    ∧ KQueuePoller.poll (fun _ _ => .error .EINTR) 0 [] =
      .ok ([], [], [] ++ ["EINTR encountered in poll"])
    ∧ KQueuePoller.poll (fun _ _ => .error (.other 9)) 0 [] =
      .error (.other 9) :=
  ⟨poll_eintr_swallowed_other_errors_propagate.1 _ SelectPollerState.init 0 rfl,
   poll_eintr_swallowed_other_errors_propagate.2.1 _ SelectPollerState.init 0 12 rfl,
   poll_eintr_swallowed_other_errors_propagate.2.2.1 _ PollPollerState.init 0 rfl,
   poll_eintr_swallowed_other_errors_propagate.2.2.2.1 _ PollPollerState.init 0
     .EBADF (by decide) rfl,
   poll_eintr_swallowed_other_errors_propagate.2.2.2.2.1 _ 0 [] rfl,
   poll_eintr_swallowed_other_errors_propagate.2.2.2.2.2 _ 0 [] (.other 9)
     (by decide) rfl⟩

/-- Claim C4: when the scan call fails with `EBADF`, `poll` clears both
interest lists and returns two empty lists instead of raising. -/
theorem select_poll_ebadf_clears_all_registrations :
    ∀ (sel : SelectCall) (s : SelectPollerState) (t : ℚ),
      sel s.readable s.writable t = .error .EBADF →
        SelectPoller.poll sel s t =
          .ok ({ readable := [], writable := [],
                 log := s.log ++ ["EBADF encountered in poll"] }, [], []) := by
  intro sel s t h
  exact SelectPoller.poll_ebadf sel s t h

/-- Witness for claim C4: a populated state whose scan call reports
`EBADF`. -/
theorem select_poll_ebadf_clears_all_registrations_witness :
    SelectPoller.poll (fun _ _ _ => .error .EBADF) ⟨[5, 7], [7], []⟩ 0 =
      .ok ({ readable := [], writable := [],
             log := [] ++ ["EBADF encountered in poll"] }, [], []) :=
  select_poll_ebadf_clears_all_registrations (fun _ _ _ => .error .EBADF)
    ⟨[5, 7], [7], []⟩ 0 rfl

/-- Claim C5: the poll-table backend classifies each fired
`(fd, eventmask)` pair — a pair with the `POLLNVAL` bit is unregistered
from the table and appears in neither result list; otherwise the fd is in
the readable result iff a `READ` bit (`POLLIN`/`POLLPRI`/`POLLHUP`) fired
and in the writable result iff the `POLLOUT` bit fired; a descriptor with
both can appear in both lists, as descriptor 3 with mask
`POLLIN ||| POLLOUT` does. -/
theorem poll_table_result_classification :
    ∀ (table fds : List (Int × Nat)),
      (PollPoller.processFds table fds).2.1 =
        (fds.filter (fun p => ((p.2 &&& POLLNVAL) == 0)
            && ((p.2 &&& PollPoller.READ) != 0))).map Prod.fst
      ∧ (PollPoller.processFds table fds).2.2 =
        (fds.filter (fun p => ((p.2 &&& POLLNVAL) == 0)
            && ((p.2 &&& PollPoller.WRITE) != 0))).map Prod.fst
      ∧ (PollPoller.processFds table fds).1 =
        fds.foldl (fun t p => if (p.2 &&& POLLNVAL) != 0
            then tableUnregister t p.1 else t) table
      ∧ PollPoller.processFds [] [(3, POLLIN ||| POLLOUT)] = ([], [3], [3]) := by
  intro table fds
  refine ⟨?_, ?_, ?_, by decide⟩
  · rw [processFds_spec]
  · rw [processFds_spec]
  · rw [processFds_spec]

/-- Claim C6: the kqueue backend's `unregister` builds its single delete
change with `filter = KQ_FILTER_READ | KQ_FILTER_WRITE`; since the filter
constants are the negative integers −1 and −2, their Python bitwise OR is
−1 = `KQ_FILTER_READ`, so the issued change names only the read filter —
the write-filter registration is never deleted. -/
theorem kqueue_unregister_names_only_read_filter :
    KQueuePoller.unregister_changes 7 =
      [{ ident := 7, filter := KQ_FILTER_READ, flags := KQ_EV_DELETE }]
    ∧ Int.lor KQ_FILTER_READ KQ_FILTER_WRITE = KQ_FILTER_READ
    ∧ KQ_FILTER_READ ≠ KQ_FILTER_WRITE := by
  refine ⟨by decide, by decide, by decide⟩

/-- Claim C7: backend selection is a fixed priority order with no failure
branch — kqueue if available, else the poll table if available, else the
descriptor-set scan. -/
theorem backend_selection_priority :
    selectBackend true true = .kqueue
    ∧ selectBackend true false = .kqueue
    ∧ selectBackend false true = .pollTable
    ∧ selectBackend false false = .selectScan := by
  decide

/-- Claim C8: `unregister` on a descriptor with no current registration in
the scan backend is a no-op — no error, state unchanged. -/
theorem select_unregister_absent_noop :
    ∀ (s : SelectPollerState) (fd : Int),
      fd ∉ s.readable → fd ∉ s.writable → SelectPoller.unregister s fd = s := by
  intro s fd hr hw
  unfold SelectPoller.unregister
  simp [hr, hw]

/-- Witness for claim C8: descriptor 3 absent from both lists. -/
theorem select_unregister_absent_noop_witness :
    (3 : Int) ∉ [(1 : Int)] ∧ (3 : Int) ∉ [(2 : Int)]
    ∧ SelectPoller.unregister ⟨[1], [2], []⟩ 3 = ⟨[1], [2], []⟩ :=
  ⟨by decide, by decide,
   select_unregister_absent_noop ⟨[1], [2], []⟩ 3 (by decide) (by decide)⟩

/-- Claim C9: `_poll_fds` converts the fractional-second timeout to
milliseconds by multiplying by 1000 and passes exactly that value to the
table wait call: the outcome is whatever the wait call returns at
`timeout * 1000`, and two wait calls agreeing there are
indistinguishable. -/
theorem poll_table_timeout_milliseconds :
    ∀ (wait : PollCall) (t : ℚ) (log : List String)
      (fds : List (Int × Nat)),
      (wait (t * 1000) = .ok fds →
        PollPoller.pollFds wait t log = .ok (fds, log))
    ∧ (∀ w2 : PollCall, wait (t * 1000) = w2 (t * 1000) →
        PollPoller.pollFds wait t log = PollPoller.pollFds w2 t log) := by
  intro wait t log fds
  constructor
  · intro h
    unfold PollPoller.pollFds
    rw [h]
  · intro w2 h
    unfold PollPoller.pollFds
    rw [h]

/-- Witness for claim C9: a wait call that answers only at 500 ms, driven
with the fractional timeout 1/2 s. -/
theorem poll_table_timeout_milliseconds_witness :
    (fun ms : ℚ => if ms = 500 then
        (.ok [((7 : Int), POLLIN)] :
          Except SelectError (List (Int × Nat)))
      else .error (.other 0)) ((1 / 2 : ℚ) * 1000) = .ok [(7, POLLIN)]
    ∧ PollPoller.pollFds
        (fun ms : ℚ => if ms = 500 then .ok [(7, POLLIN)]
          else .error (.other 0)) (1 / 2) []
      = .ok ([(7, POLLIN)], []) :=
  ⟨by norm_num,
   (poll_table_timeout_milliseconds
      (fun ms : ℚ => if ms = 500 then .ok [(7, POLLIN)]
        else .error (.other 0)) (1 / 2) [] [(7, POLLIN)]).1 (by norm_num)⟩

/-- Claim C10: in the scan backend, `register_readable` changes only the
readable interest list (writable list and log untouched) and
`register_writable` changes only the writable interest list. -/
theorem select_register_frame :
    ∀ (s : SelectPollerState) (fd : Int),
      (SelectPoller.register_readable s fd).writable = s.writable
      ∧ (SelectPoller.register_readable s fd).log = s.log
      ∧ (SelectPoller.register_writable s fd).readable = s.readable
      ∧ (SelectPoller.register_writable s fd).log = s.log := by
  intro s fd
  exact ⟨rfl, rfl, rfl, rfl⟩
